import Mathlib

/-
Shallow embedding of src/Fakenews.py: the evidence aggregator and verdict
classifier of the fake-news-detector app.  External HTTP calls are modelled
by passing the transport outcome as an argument: `Except.error e` stands for
a raised transport/parse exception, `Except.ok v` for a successfully parsed
JSON body.  Python exceptions raised inside the code under study are
modelled by `Except.error`; dict keys that the code probes with `in` /
`.get` are modelled by presence flags next to the payload fields.
-/

deriving instance DecidableEq for Except

namespace FakeNews

/-- The classifier threshold 0.5, as the literal rational 1/2 (see
`half_eq` below). -/
def half : ℚ := ⟨1, 2, by decide, by decide⟩

/-- Python truthiness test on an optional environment string: `os.getenv`
returns `None` when the variable is unset, and both `None` and the empty
string are falsy under `not key`. -/
def pyFalsy : Option String → Bool
  | none => true
  | some s => s = ""

/-- Python `str.lower()` restricted to its ASCII behaviour, applied
character by character. -/
def pyLower (s : String) : String := String.mk (s.data.map Char.toLower)

/-- Python `text.replace(' ', '+')`: every space becomes a plus sign. -/
def replaceSpacePlus (s : String) : String :=
  String.mk (s.data.map (fun c => if c = ' ' then '+' else c))

/-- The constructed Google News search URL used by both the news-tier
fallback (line 56) and the global placeholder (line 166). -/
def googleNewsUrl (text : String) : String :=
  "https://news.google.com/search?q=" ++ replaceSpacePlus text

/-- Parsed JSON body of the classification oracle, as probed by
`predict_text_authenticity`: whether the value is a dict, whether the keys
"error", "labels", "scores" are present, and the two parallel lists.
Scores are modelled as rationals. -/
structure HFJson where
  isDict : Bool
  hasError : Bool
  hasLabels : Bool
  hasScores : Bool
  labels : List String
  scores : List ℚ
deriving DecidableEq

/-- Value returned by `query_hf_model`: either the synthetic
`{"error": ...}` dict built on a non-200 status, or the parsed body. -/
inductive HFModelResult where
  | errDict (msg : String)
  | json (j : HFJson)
deriving DecidableEq

/-- `query_hf_model` (lines 23-28).  The transport call itself is not
wrapped in try/except, so a raised exception propagates (`Except.error`);
a non-200 status is converted into an error dict; otherwise the parsed
body is returned. -/
def query_hf_model (t : Except String (Nat × HFJson)) :
    Except String HFModelResult :=
  match t with
  | .error e => .error e
  | .ok (status, j) =>
      if status ≠ 200 then
        .ok (.errDict ("HF API Error " ++ toString status))
      else
        .ok (.json j)

/-- Parsed JSON body of the fact-check oracle: a claimReview entry with
optional "url" and optional "publisher" dict with optional "name". -/
structure ClaimReview where
  hasUrl : Bool
  url : String
  hasPublisher : Bool
  publisherHasName : Bool
  publisherName : String
deriving DecidableEq

/-- One claim object of the fact-check response: optional "text" and
optional "claimReview" array. -/
structure FactClaim where
  hasText : Bool
  text : String
  hasClaimReview : Bool
  claimReview : List ClaimReview
deriving DecidableEq

/-- Fact-check response body: optional "claims" array. -/
structure FactJson where
  hasClaims : Bool
  claims : List FactClaim
deriving DecidableEq

/-- `query_google_factcheck` (lines 33-36): no try/except at all, so the
transport outcome, exception included, is passed through unchanged. -/
def query_google_factcheck (t : Except String FactJson) :
    Except String FactJson := t

/-- One article of the news response: optional "title", "url", and
"source" dict with optional "name".  `article["source"]` is a plain
subscript in main, so its absence raises. -/
structure NewsArticle where
  hasTitle : Bool
  title : String
  hasUrl : Bool
  url : String
  hasSource : Bool
  sourceHasName : Bool
  sourceName : String
deriving DecidableEq

/-- News API response body: optional "articles" array. -/
structure NewsJson where
  hasArticles : Bool
  articles : List NewsArticle
deriving DecidableEq

/-- One entry of the fallback `{"results": [...]}` dict: here "source"
is a plain string, read with `.get` in main. -/
structure FallbackEntry where
  hasTitle : Bool
  title : String
  hasUrl : Bool
  url : String
  hasSource : Bool
  source : String
deriving DecidableEq

/-- The three dict shapes `query_newsapi` can return: the primary body
(with a non-empty "articles" list), the synthesized fallback dict (with
a "results" list), or the error marker dict (only an "error" key). -/
inductive NewsResult where
  | articles (arts : List NewsArticle)
  | results (rs : List FallbackEntry)
  | errorMarker (msg : String)
deriving DecidableEq

/-- `query_newsapi` (lines 41-59): the whole body sits in a try/except,
so a transport/parse exception becomes the error marker; a response with
a non-empty "articles" list is returned as is; otherwise a single
synthesized Google News search pseudo-result is returned. -/
def query_newsapi (text : String) (t : Except String NewsJson) : NewsResult :=
  match t with
  | .error e => .errorMarker e
  | .ok data =>
      if data.hasArticles && 0 < data.articles.length then
        .articles data.articles
      else
        .results [⟨true, "Google News Search", true, googleNewsUrl text,
                   true, "Google News"⟩]

/-- `predict_text_authenticity` (lines 64-76).  An error result (non-200
dict, or a body carrying "error") yields ("fake", 0.0); a dict with
"labels" reads `labels[0].lower()` and `scores[0]` (a plain subscript on a
possibly absent/empty list raises); a top label outside {"real","fake"}
is re-derived from the score by threshold 0.5; any other shape yields
("fake", 0.0). -/
def predict_text_authenticity (t : Except String (Nat × HFJson)) :
    Except String (String × ℚ) :=
  match query_hf_model t with
  | .error e => .error e
  | .ok (.errDict _) => .ok ("fake", 0)
  | .ok (.json j) =>
      if j.hasError then .ok ("fake", 0)
      else if j.isDict && j.hasLabels then
        match j.labels with
        | [] => .error "IndexError: labels"
        | l0 :: _ =>
            if j.hasScores then
              match j.scores with
              | [] => .error "IndexError: scores"
              | s0 :: _ =>
                  let label := pyLower l0
                  let label2 :=
                    if label = "real" ∨ label = "fake" then label
                    else if half ≤ s0 then "real" else "fake"
                  .ok (label2, s0)
            else .error "KeyError: scores"
      else .ok ("fake", 0)

/-- A citation triple (display text, URL, source name). -/
abbrev Citation := String × String × String

/-- Order-preserving effectful map: models a Python for-loop whose body
may raise, aborting the whole computation. -/
def mapE {α β : Type} (f : α → Except String β) :
    List α → Except String (List β)
  | [] => .ok []
  | a :: l =>
      match f a with
      | .error e => .error e
      | .ok b =>
          match mapE f l with
          | .error e => .error e
          | .ok bs => .ok (b :: bs)

/-- Body of the fact-check loop (lines 140-144): `claim.get("text","N/A")`,
then the plain subscript `claim["claimReview"][0]` (raises when the key is
missing or the array empty), then `.get` defaults for url and publisher
name. -/
def extractFact (c : FactClaim) : Except String Citation :=
  let text := if c.hasText then c.text else "N/A"
  if c.hasClaimReview then
    match c.claimReview with
    | [] => .error "IndexError: claimReview"
    | review :: _ =>
        let url := if review.hasUrl then review.url else "#"
        let src := if review.hasPublisher && review.publisherHasName then
                     review.publisherName
                   else "Unknown"
        .ok (text, url, src)
  else .error "KeyError: claimReview"

/-- The fact-check tier of main (lines 138-144): when "claims" is present,
the first three claims are extracted in order; otherwise no citations. -/
def factSources (f : FactJson) : Except String (List Citation) :=
  if f.hasClaims then mapE extractFact (f.claims.take 3) else .ok []

/-- Body of the "articles" loop (lines 150-154): `.get` defaults for title
and url, plain subscript `article["source"]` (raises when missing), then
`.get("name","Unknown")`. -/
def extractArticle (a : NewsArticle) : Except String Citation :=
  let title := if a.hasTitle then a.title else "N/A"
  let url := if a.hasUrl then a.url else "#"
  if a.hasSource then
    .ok (title, url, if a.sourceHasName then a.sourceName else "Unknown")
  else .error "KeyError: source"

/-- Body of the "results" loop (lines 157-161): all three fields read with
`.get` defaults, so extraction is total here. -/
def extractFallback (r : FallbackEntry) : Citation :=
  (if r.hasTitle then r.title else "N/A",
   if r.hasUrl then r.url else "#",
   if r.hasSource then r.source else "Unknown")

/-- The news tier of main (lines 149-162): the "articles" branch, else
the "results" branch, else (error marker dict) nothing. -/
def newsSources : NewsResult → Except String (List Citation)
  | .articles arts => mapE extractArticle (arts.take 3)
  | .results rs => .ok ((rs.take 3).map extractFallback)
  | .errorMarker _ => .ok []

/-- Source collection of main (lines 134-162): fact-check citations first,
then news citations; any exception raised inside a loop aborts main. -/
def collectSources (input : String) (fcT : Except String FactJson)
    (newsT : Except String NewsJson) : Except String (List Citation) :=
  match query_google_factcheck fcT with
  | .error e => .error e
  | .ok fact_results =>
      match factSources fact_results with
      | .error e => .error e
      | .ok s1 =>
          match newsSources (query_newsapi input newsT) with
          | .error e => .error e
          | .ok s2 => .ok (s1 ++ s2)

/-- The placeholder guarantee (lines 164-167): an empty list is replaced
by the single synthetic Google News citation. -/
def finalSources (input : String) (s : List Citation) : List Citation :=
  if s = [] then [("Search on Google News", googleNewsUrl input, "Google News")]
  else s

/-- Outcome of one press of the verify button. -/
inductive MainOutcome where
  | configError
  | raised (msg : String)
  | rendered (label : String) (score : ℚ) (sources : List Citation)
deriving DecidableEq

/-- `main`'s verify-button handler (lines 125-170): missing key check,
prediction, source collection, placeholder guarantee, render.  The three
`Except` arguments are the transport outcomes of the three oracle calls. -/
def main (hfKey gfcKey newsKey : Option String) (user_input : String)
    (hfT : Except String (Nat × HFJson)) (fcT : Except String FactJson)
    (newsT : Except String NewsJson) : MainOutcome :=
  if pyFalsy hfKey || pyFalsy gfcKey || pyFalsy newsKey then .configError
  else
    match predict_text_authenticity hfT with
    | .error e => .raised e
    | .ok (prediction, score) =>
        match collectSources user_input fcT newsT with
        | .error e => .raised e
        | .ok s => .rendered prediction score (finalSources user_input s)

/-- The rational 9/10, written as an explicit reduced fraction (see
`q910_eq` below). -/
def q910 : ℚ := ⟨9, 10, by decide, by decide⟩

/-- The rational 1/10, written as an explicit reduced fraction (see
`q110_eq` below). -/
def q110 : ℚ := ⟨1, 10, by decide, by decide⟩

/-- The rational 3/4, written as an explicit reduced fraction (see
`q34_eq` below). -/
def q34 : ℚ := ⟨3, 4, by decide, by decide⟩

/-- A body shape for the classification oracle with no useful keys. -/
def dummyJ : HFJson := ⟨true, false, false, false, [], []⟩

/-- Classification-oracle body with labels ["real","fake"] and scores
[0.9, 0.1]: the scenario of the spec's fifth testable property. -/
def realFakeJson : HFJson := ⟨true, false, true, true, ["real", "fake"], [q910, q110]⟩

/-- Transport fixture: classification oracle replies 404, so the
prediction degrades to ("fake", 0.0) without touching labels. -/
def hfNotFound : Except String (Nat × HFJson) := .ok (404, dummyJ)

/-- Fact-check body with no "claims" key. -/
def fcEmptyJson : FactJson := ⟨false, []⟩

/-- Transport fixture: fact-check oracle replies with no "claims" key. -/
def fcEmpty : Except String FactJson := .ok fcEmptyJson

/-- News body with one well-formed article. -/
def newsOneJson : NewsJson := ⟨true, [⟨true, "A", true, "u", true, true, "S"⟩]⟩

/-- Transport fixture: news oracle replies with one well-formed article. -/
def newsOne : Except String NewsJson := .ok newsOneJson

/-- Fact-check body with one claim that has a complete claimReview
entry. -/
def fcOneJson : FactJson := ⟨true, [⟨true, "c1", true, [⟨true, "u1", true, true, "P"⟩]⟩]⟩

/-- Transport fixture: fact-check oracle replies with `fcOneJson`. -/
def fcOne : Except String FactJson := .ok fcOneJson

/-- Classification-oracle body with a zero-shot label outside the
expected set and score 0.75. -/
def labelOneJson : HFJson := ⟨true, false, true, true, ["LABEL_1"], [q34]⟩

/-- Fact-check claim object whose optional fields are all missing but
whose claimReview entry is present (also with all fields missing). -/
def bareClaim : FactClaim := ⟨false, "", true, [⟨false, "", false, false, ""⟩]⟩

/-- Fact-check claim object with a "text" field but no "claimReview"
key. -/
def noReviewClaim : FactClaim := ⟨true, "c", false, []⟩

/-- Fact-check claim object whose "claimReview" key is present but holds
an empty array. -/
def emptyReviewClaim : FactClaim := ⟨true, "c", true, []⟩

/-- `half` is the rational one half, i.e. the threshold 0.5. -/
theorem half_eq : half = 1/2 := by
  rw [half, Rat.mk'_eq_divInt, Rat.divInt_eq_div]; norm_num

/-- `q910` is the rational 9/10, i.e. the score 0.9. -/
theorem q910_eq : q910 = 9/10 := by
  rw [q910, Rat.mk'_eq_divInt, Rat.divInt_eq_div]; norm_num

/-- `q110` is the rational 1/10, i.e. the score 0.1. -/
theorem q110_eq : q110 = 1/10 := by
  rw [q110, Rat.mk'_eq_divInt, Rat.divInt_eq_div]; norm_num

/-- `q34` is the rational 3/4, i.e. the score 0.75. -/
theorem q34_eq : q34 = 3/4 := by
  rw [q34, Rat.mk'_eq_divInt, Rat.divInt_eq_div]; norm_num

/-- A successful `mapE` run produces one output per input. -/
theorem mapE_ok_length {α β : Type} (f : α → Except String β) :
    ∀ (l : List α) (r : List β), mapE f l = .ok r → r.length = l.length := by
  intro l
  induction l with
  | nil => intro r h; simp [mapE] at h; simp [← h]
  | cons a l ih =>
      intro r h
      simp only [mapE] at h
      cases hfa : f a with
      | error e => rw [hfa] at h; exact absurd h (by simp)
      | ok b =>
          rw [hfa] at h
          cases hml : mapE f l with
          | error e => rw [hml] at h; exact absurd h (by simp)
          | ok bs =>
              rw [hml] at h
              have hr : b :: bs = r := by simpa using h
              rw [← hr]
              simp [ih bs hml]

/-- The fact-check tier contributes at most three citations. -/
theorem factSources_length (f : FactJson) (r : List Citation)
    (h : factSources f = .ok r) : r.length ≤ 3 := by
  unfold factSources at h
  split at h
  · have hlen := mapE_ok_length extractFact (f.claims.take 3) r h
    rw [hlen, List.length_take]
    exact Nat.min_le_left 3 f.claims.length
  · have hr : ([] : List Citation) = r := by simpa using h
    rw [← hr]; simp

/-- The news tier contributes at most three citations. -/
theorem newsSources_length (n : NewsResult) (r : List Citation)
    (h : newsSources n = .ok r) : r.length ≤ 3 := by
  cases n with
  | articles arts =>
      have hlen := mapE_ok_length extractArticle (arts.take 3) r h
      rw [hlen, List.length_take]
      exact Nat.min_le_left 3 arts.length
  | results rs =>
      have hr : (rs.take 3).map extractFallback = r := by simpa [newsSources] using h
      rw [← hr]
      rw [List.length_map, List.length_take]
      exact Nat.min_le_left 3 rs.length
  | errorMarker msg =>
      have hr : ([] : List Citation) = r := by simpa [newsSources] using h
      rw [← hr]; simp

/-- Successful source collection yields at most six citations. -/
theorem collectSources_length (input : String) (fcT : Except String FactJson)
    (newsT : Except String NewsJson) (s : List Citation)
    (h : collectSources input fcT newsT = .ok s) : s.length ≤ 6 := by
  unfold collectSources at h
  cases fcT with
  | error e => exact absurd h (by simp [query_google_factcheck])
  | ok f =>
      simp only [query_google_factcheck] at h
      cases h1 : factSources f with
      | error e => rw [h1] at h; exact absurd h (by simp)
      | ok s1 =>
          rw [h1] at h
          cases h2 : newsSources (query_newsapi input newsT) with
          | error e => rw [h2] at h; exact absurd h (by simp)
          | ok s2 =>
              rw [h2] at h
              have hs : s1 ++ s2 = s := by simpa using h
              rw [← hs, List.length_append]
              have := factSources_length f s1 h1
              have := newsSources_length _ s2 h2
              omega

/-- The final list is the collected one unless that was empty, in which
case it is the single placeholder. -/
theorem finalSources_length (input : String) (s : List Citation) :
    1 ≤ (finalSources input s).length ∧
      (finalSources input s).length = max 1 s.length := by
  unfold finalSources
  split
  · next h => simp [h]
  · next h =>
      have : s.length ≠ 0 := by simpa using (List.length_eq_zero).not.mpr h
      omega

/-- Claim C1: whenever main renders, the sources list passed to rendering
has length between 1 and 6: each oracle tier contributes at most three
citations, and an empty concatenation is replaced by exactly one synthetic
placeholder citation ("Search on Google News", Google News search URL,
"Google News"). -/
theorem evidence_set_bounds (k1 k2 k3 : Option String) (input : String)
    (hfT : Except String (Nat × HFJson)) (fcT : Except String FactJson)
    (newsT : Except String NewsJson) (p : String) (sc : ℚ)
    (sources : List Citation)
    (hmain : main k1 k2 k3 input hfT fcT newsT
      = MainOutcome.rendered p sc sources) :
    1 ≤ sources.length ∧ sources.length ≤ 6 := by
  unfold main at hmain
  split at hmain
  · exact absurd hmain (by simp)
  · cases hp : predict_text_authenticity hfT with
    | error e => rw [hp] at hmain; exact absurd hmain (by simp)
    | ok pr =>
        rw [hp] at hmain
        obtain ⟨prediction, score⟩ := pr
        cases hc : collectSources input fcT newsT with
        | error e => rw [hc] at hmain; exact absurd hmain (by simp)
        | ok s =>
            rw [hc] at hmain
            simp only [MainOutcome.rendered.injEq] at hmain
            obtain ⟨-, -, h3⟩ := hmain
            rw [← h3]
            obtain ⟨hge, heq⟩ := finalSources_length input s
            have hs6 := collectSources_length input fcT newsT s hc
            constructor
            · exact hge
            · omega

/-- Witness for C1 at a concrete run: keys present, classification replies
404, fact-check has no claims, news has one article. -/
theorem evidence_set_bounds_witness :
    1 ≤ ([("A", "u", "S")] : List Citation).length ∧
      ([("A", "u", "S")] : List Citation).length ≤ 6 :=
  evidence_set_bounds (some "k") (some "k") (some "k") "x" hfNotFound fcEmpty
    newsOne "fake" 0 [("A", "u", "S")] (by decide)

/-- Claim C2: a non-200 classification status makes
predict_text_authenticity return exactly the pair ("fake", 0.0). -/
theorem predict_non200_fake (s : Nat) (j : HFJson) (h : s ≠ 200) :
    predict_text_authenticity (.ok (s, j)) = .ok ("fake", 0) := by
  simp [predict_text_authenticity, query_hf_model, h]

/-- Witness for C2 at status 500. -/
theorem predict_non200_fake_witness :
    predict_text_authenticity (Except.ok (500, dummyJ))
      = Except.ok ("fake", 0) :=
  predict_non200_fake 500 dummyJ (by decide)

/-- Claim C3 counterexample: a transport exception in the fact-check
adapter is passed through unchanged — there is no try/except in
query_google_factcheck — and it reaches main as a raised exception instead
of being downgraded to a result without a "claims" key. -/
theorem factcheck_error_propagates :
    query_google_factcheck (Except.error "ConnectionError")
        = Except.error "ConnectionError" ∧
      main (some "k") (some "k") (some "k") "x" hfNotFound
          (Except.error "ConnectionError") newsOne
        = MainOutcome.raised "ConnectionError" :=
  ⟨rfl, by decide⟩

/-- Claim C3 amended: the news adapter absorbs a transport/parse failure
into the error-marker dict and the classification adapter absorbs a
non-success status into an error dict, but a transport/parse exception in
the fact-check adapter — and in the classification adapter's own call —
is not caught and propagates to the caller. -/
theorem adapter_failure_absorption (text e : String) (s : Nat) (j : HFJson)
    (hs : s ≠ 200) :
    query_newsapi text (Except.error e) = NewsResult.errorMarker e ∧
      query_hf_model (Except.ok (s, j))
        = Except.ok (HFModelResult.errDict ("HF API Error " ++ toString s)) ∧
      query_google_factcheck (Except.error e) = Except.error e ∧
      query_hf_model (Except.error e) = Except.error e := by
  refine ⟨rfl, ?_, rfl, rfl⟩
  simp [query_hf_model, hs]

/-- Witness for the amended C3 at status 500 and error "E". -/
theorem adapter_failure_absorption_witness :
    query_newsapi "t" (Except.error "E") = NewsResult.errorMarker "E" ∧
      query_hf_model (Except.ok (500, dummyJ))
        = Except.ok (HFModelResult.errDict ("HF API Error " ++ toString 500)) ∧
      query_google_factcheck (Except.error "E") = Except.error "E" ∧
      query_hf_model (Except.error "E") = Except.error "E" :=
  adapter_failure_absorption "t" "E" 500 dummyJ (by decide)

/-- Claim C4: when the fact-check response contains N ≥ 1 claims and main
renders, the rendered list is exactly the in-order extraction of the first
min(N,3) claims followed by the news-tier citations: min(N,3) fact-check
citations, in original relative order, all before any news citation. -/
theorem fact_citations_first (k1 k2 k3 : Option String) (input : String)
    (hfT : Except String (Nat × HFJson)) (f : FactJson)
    (newsT : Except String NewsJson) (p : String) (sc : ℚ)
    (sources fc nc : List Citation)
    (hclaims : f.hasClaims = true) (hN : 1 ≤ f.claims.length)
    (hfc : mapE extractFact (f.claims.take 3) = .ok fc)
    (hnc : newsSources (query_newsapi input newsT) = .ok nc)
    (hmain : main k1 k2 k3 input hfT (.ok f) newsT
      = MainOutcome.rendered p sc sources) :
    sources = fc ++ nc ∧ fc.length = min f.claims.length 3 := by
  have hfclen : fc.length = min f.claims.length 3 := by
    rw [mapE_ok_length extractFact (f.claims.take 3) fc hfc, List.length_take,
        Nat.min_comm]
  have hfcpos : 1 ≤ fc.length := by rw [hfclen]; omega
  have hcs : collectSources input (.ok f) newsT = .ok (fc ++ nc) := by
    simp [collectSources, query_google_factcheck, factSources, hclaims, hfc, hnc]
  unfold main at hmain
  split at hmain
  · exact absurd hmain (by simp)
  · cases hp : predict_text_authenticity hfT with
    | error e => rw [hp] at hmain; exact absurd hmain (by simp)
    | ok pr =>
        rw [hp] at hmain
        obtain ⟨prediction, score⟩ := pr
        rw [hcs] at hmain
        simp only [MainOutcome.rendered.injEq] at hmain
        obtain ⟨-, -, h3⟩ := hmain
        have hne : fc ++ nc ≠ [] := by
          intro hcontra
          rw [List.append_eq_nil] at hcontra
          rw [hcontra.1] at hfcpos
          simp at hfcpos
        rw [finalSources, if_neg hne] at h3
        exact ⟨h3.symm, hfclen⟩

/-- Witness for C4: one fact-check claim and one news article produce the
fact citation first, then the news citation. -/
theorem fact_citations_first_witness :
    ([("c1", "u1", "P"), ("A", "u", "S")] : List Citation)
        = [("c1", "u1", "P")] ++ [("A", "u", "S")] ∧
      ([("c1", "u1", "P")] : List Citation).length
        = min fcOneJson.claims.length 3 :=
  fact_citations_first (some "k") (some "k") (some "k") "x" hfNotFound
    fcOneJson newsOne "fake" 0 [("c1", "u1", "P"), ("A", "u", "S")]
    [("c1", "u1", "P")] [("A", "u", "S")]
    (by decide) (by decide) (by decide) (by decide) (by decide)

/-- Claim C5: a parsed primary news response with zero articles (or no
"articles" key) makes query_newsapi return the single synthesized
pseudo-result, and the news tier is exactly one Google-News-search
citation whose URL is the base URL plus the query with every space
replaced by a plus sign. -/
theorem news_fallback_citation (text : String) (d : NewsJson)
    (h : d.hasArticles = false ∨ d.articles = []) :
    query_newsapi text (.ok d)
        = NewsResult.results
            [⟨true, "Google News Search", true, googleNewsUrl text,
              true, "Google News"⟩] ∧
      newsSources (query_newsapi text (.ok d))
        = .ok [("Google News Search",
                "https://news.google.com/search?q=" ++ replaceSpacePlus text,
                "Google News")] := by
  have hq : query_newsapi text (.ok d)
      = NewsResult.results
          [⟨true, "Google News Search", true, googleNewsUrl text,
            true, "Google News"⟩] := by
    rcases h with h | h <;>
      simp [query_newsapi, h]
  refine ⟨hq, ?_⟩
  rw [hq]
  simp [newsSources, extractFallback, googleNewsUrl]

/-- Witness for C5 on the query "the sky is green" with an empty-articles
response; the second conjunct evaluates the synthesized URL. -/
theorem news_fallback_citation_witness :
    (query_newsapi "the sky is green" (.ok ⟨true, []⟩)
        = NewsResult.results
            [⟨true, "Google News Search", true,
              googleNewsUrl "the sky is green", true, "Google News"⟩] ∧
      newsSources (query_newsapi "the sky is green" (.ok ⟨true, []⟩))
        = .ok [("Google News Search",
                "https://news.google.com/search?q="
                  ++ replaceSpacePlus "the sky is green",
                "Google News")]) ∧
      "https://news.google.com/search?q="
          ++ replaceSpacePlus "the sky is green"
        = "https://news.google.com/search?q=the+sky+is+green" :=
  ⟨news_fallback_citation "the sky is green" ⟨true, []⟩ (by decide), by decide⟩

/-- Claim C6: on a well-formed payload whose lowercased top label is
outside {"real","fake"}, the classifier relabels by the 0.5 threshold
(`half`) and keeps the oracle's top score; and on labels ["real","fake"]
with scores [0.9, 0.1] it returns ("real", 0.9). -/
theorem relabel_by_threshold (j : HFJson) (l0 : String) (ls : List String)
    (s0 : ℚ) (ss : List ℚ)
    (hd : j.isDict = true) (he : j.hasError = false) (hl : j.hasLabels = true)
    (hs : j.hasScores = true) (hle : j.labels = l0 :: ls)
    (hse : j.scores = s0 :: ss)
    (hout : pyLower l0 ≠ "real" ∧ pyLower l0 ≠ "fake") :
    predict_text_authenticity (.ok (200, j))
        = .ok (if half ≤ s0 then "real" else "fake", s0) ∧
      predict_text_authenticity (.ok (200, realFakeJson))
        = .ok ("real", q910) := by
  constructor
  · simp [predict_text_authenticity, query_hf_model, hd, he, hl, hs, hle, hse,
          hout.1, hout.2]
  · decide

/-- Witness for C6: top label "LABEL_1" with score 0.75 is relabelled
"real" (0.75 ≥ 0.5), and the concrete ["real","fake"] payload gives
("real", 0.9). -/
theorem relabel_by_threshold_witness :
    (predict_text_authenticity (.ok (200, labelOneJson))
        = .ok (if half ≤ q34 then "real" else "fake", q34) ∧
      predict_text_authenticity (.ok (200, realFakeJson))
        = .ok ("real", q910)) ∧
      (if half ≤ q34 then "real" else "fake") = "real" :=
  ⟨relabel_by_threshold labelOneJson "LABEL_1" [] q34 []
      rfl rfl rfl rfl rfl rfl (by decide),
    by decide⟩

/-- Claim C7 counterexample: a claim object without a "claimReview" key —
and likewise one whose "claimReview" array is empty — makes the extraction
raise (plain subscript `claim["claimReview"][0]`, KeyError respectively
IndexError) instead of defaulting, so extraction is not total; on such
responses main aborts before rendering anything. -/
theorem claimReview_missing_raises :
    extractFact noReviewClaim = Except.error "KeyError: claimReview" ∧
      extractFact emptyReviewClaim = Except.error "IndexError: claimReview" ∧
      main (some "k") (some "k") (some "k") "x" hfNotFound
          (Except.ok ⟨true, [noReviewClaim]⟩) newsOne
        = MainOutcome.raised "KeyError: claimReview" ∧
      main (some "k") (some "k") (some "k") "x" hfNotFound
          (Except.ok ⟨true, [emptyReviewClaim]⟩) newsOne
        = MainOutcome.raised "IndexError: claimReview" := by
  decide

/-- Claim C7 amended: extraction is total in the optional "text", "url"
and publisher-"name" fields — defaulting to "N/A", "#" and "Unknown" —
whenever the claim has a non-empty "claimReview" array, but a claim whose
"claimReview" key is missing raises a KeyError and one whose "claimReview"
array is empty raises an IndexError. -/
theorem extract_defaults (c : FactClaim) (r : ClaimReview)
    (l : List ClaimReview) (c2 c3 : FactClaim)
    (hcr : c.hasClaimReview = true) (heq : c.claimReview = r :: l)
    (h2 : c2.hasClaimReview = false)
    (h3 : c3.hasClaimReview = true) (h3e : c3.claimReview = []) :
    extractFact c
        = .ok (if c.hasText then c.text else "N/A",
               if r.hasUrl then r.url else "#",
               if r.hasPublisher && r.publisherHasName then r.publisherName
               else "Unknown") ∧
      extractFact c2 = Except.error "KeyError: claimReview" ∧
      extractFact c3 = Except.error "IndexError: claimReview" := by
  refine ⟨?_, ?_, ?_⟩
  · simp [extractFact, hcr, heq]
  · simp [extractFact, h2]
  · simp [extractFact, h3, h3e]

/-- Witness for the amended C7: a claim with every optional field missing
extracts to the three defaults, one without a claimReview key raises a
KeyError, and one with an empty claimReview array raises an IndexError. -/
theorem extract_defaults_witness :
    extractFact bareClaim = .ok ("N/A", "#", "Unknown") ∧
      extractFact noReviewClaim = Except.error "KeyError: claimReview" ∧
      extractFact emptyReviewClaim = Except.error "IndexError: claimReview" := by
  have h := extract_defaults bareClaim ⟨false, "", false, false, ""⟩ []
    noReviewClaim emptyReviewClaim rfl rfl rfl rfl rfl
  simpa using h

/-- Claim C8: when any of the three API keys is missing, the button press
ends in the configuration-error outcome for every combination of oracle
transport outcomes — the outcome does not depend on any oracle response,
so no prediction is made and nothing is rendered. -/
theorem missing_key_blocks (k1 k2 k3 : Option String) (input : String)
    (hfT : Except String (Nat × HFJson)) (fcT : Except String FactJson)
    (newsT : Except String NewsJson)
    (h : k1 = none ∨ k2 = none ∨ k3 = none) :
    main k1 k2 k3 input hfT fcT newsT = MainOutcome.configError := by
  rcases h with h | h | h <;> subst h <;> simp [main, pyFalsy]

/-- Witness for C8 with the news key missing. -/
theorem missing_key_blocks_witness :
    main (some "k") (some "k") none "x" hfNotFound fcEmpty newsOne
      = MainOutcome.configError :=
  missing_key_blocks (some "k") (some "k") none "x" hfNotFound fcEmpty newsOne
    (Or.inr (Or.inr rfl))

/-- Claim C9: whenever predict_text_authenticity returns a pair, its label
is "real" or "fake"; no path produces "uncertain" or "unknown". -/
theorem label_always_real_or_fake (t : Except String (Nat × HFJson))
    (lab : String) (sc : ℚ)
    (h : predict_text_authenticity t = .ok (lab, sc)) :
    lab = "real" ∨ lab = "fake" := by
  have hfk : ∀ z : ℚ,
      (Except.ok ("fake", z) : Except String (String × ℚ)) = .ok (lab, sc) →
        lab = "fake" := by
    intro z hz
    simp only [Except.ok.injEq, Prod.mk.injEq] at hz
    exact hz.1.symm
  unfold predict_text_authenticity at h
  cases hq : query_hf_model t with
  | error e => rw [hq] at h; exact absurd h (by simp)
  | ok r =>
      rw [hq] at h
      cases r with
      | errDict m => exact Or.inr (hfk 0 h)
      | json j =>
          simp only at h
          split at h
          · exact Or.inr (hfk 0 h)
          · split at h
            · cases hle : j.labels with
              | nil => rw [hle] at h; exact absurd h (by simp)
              | cons l0 ls =>
                  rw [hle] at h
                  simp only at h
                  split at h
                  · cases hse : j.scores with
                    | nil => rw [hse] at h; exact absurd h (by simp)
                    | cons s0 ss =>
                        rw [hse] at h
                        simp only at h
                        by_cases hcond : pyLower l0 = "real" ∨ pyLower l0 = "fake"
                        · rw [if_pos hcond] at h
                          simp only [Except.ok.injEq, Prod.mk.injEq] at h
                          rw [← h.1]
                          exact hcond
                        · rw [if_neg hcond] at h
                          by_cases hs0 : half ≤ s0
                          · rw [if_pos hs0] at h
                            simp only [Except.ok.injEq, Prod.mk.injEq] at h
                            exact Or.inl h.1.symm
                          · rw [if_neg hs0] at h
                            simp only [Except.ok.injEq, Prod.mk.injEq] at h
                            exact Or.inr h.1.symm
                  · exact absurd h (by simp)
            · exact Or.inr (hfk 0 h)

/-- Witness for C9 on the degraded 404 run, where the label is "fake". -/
theorem label_always_real_or_fake_witness :
    "fake" = "real" ∨ "fake" = "fake" :=
  label_always_real_or_fake hfNotFound "fake" 0 (by decide)

/-- Claim C10: a transport exception caught by the news adapter becomes
the error-marker dict, which holds neither "articles" nor "results" and so
contributes zero news citations; when the fact-check tier is also empty,
the only citation the user sees is the global placeholder. -/
theorem news_error_dropped (text e : String) (f : FactJson)
    (hc : f.hasClaims = false) :
    query_newsapi text (Except.error e) = NewsResult.errorMarker e ∧
      newsSources (NewsResult.errorMarker e) = Except.ok [] ∧
      main (some "k") (some "k") (some "k") text hfNotFound (Except.ok f)
          (Except.error e)
        = MainOutcome.rendered "fake" 0
            [("Search on Google News", googleNewsUrl text, "Google News")] := by
  refine ⟨rfl, rfl, ?_⟩
  simp [main, pyFalsy, predict_text_authenticity, query_hf_model, hfNotFound,
        collectSources, query_google_factcheck, factSources, hc, newsSources,
        query_newsapi, finalSources]

/-- Witness for C10 on a fact-check response without "claims". -/
theorem news_error_dropped_witness :
    query_newsapi "a b" (Except.error "E") = NewsResult.errorMarker "E" ∧
      newsSources (NewsResult.errorMarker "E") = Except.ok [] ∧
      main (some "k") (some "k") (some "k") "a b" hfNotFound
          (Except.ok fcEmptyJson) (Except.error "E")
        = MainOutcome.rendered "fake" 0
            [("Search on Google News", googleNewsUrl "a b", "Google News")] :=
  news_error_dropped "a b" "E" fcEmptyJson (by decide)

end FakeNews
